import Mathlib

/-!
Shallow embedding of the visibility-filter and ownership-guard logic of the
blog application (src/mvp_django_blog/blog/views.py and models.py).

Rows are modelled as structures; a table is a list of rows.  The nullable
foreign key Post.category (models.py, on_delete=SET_NULL, null=True) is an
Option carrying the joined category row.  Timestamps are integers; the
request clock datetime.now() is a parameter `now`.  The requesting user is
an Option Nat: none is the anonymous user, some u an authenticated user id
(request.user of an anonymous request never equals a stored author).
-/

namespace Blog

structure Category where
  id : Nat
  slug : String
  is_published : Bool
deriving DecidableEq

structure Post where
  id : Nat
  title : String
  pub_date : Int
  is_published : Bool
  author : Nat
  category : Option Category
deriving DecidableEq

structure Comment where
  id : Nat
  text : String
  posts : Nat
  author : Nat
deriving DecidableEq

/-- views.py line 25: OBJECTS_PER_PAGE = 10, the page size of every listing. -/
def OBJECTS_PER_PAGE : Nat := 10

/-- The ordering tuple ('-pub_date', 'title') shared by Post.Meta.ordering
(models.py line 44) and HomePage.ordering (views.py line 107): pub_date
descending, then title ascending. -/
def postOrder (a b : Post) : Bool :=
  if a.pub_date = b.pub_date then decide (a.title ≤ b.title)
  else decide (b.pub_date < a.pub_date)

/-- HomePage queryset filter (views.py lines 100-104):
pub_date__lte=datetime.now(), is_published=True, category__is_published=True.
The last condition traverses the nullable foreign key, which the ORM turns
into a join: a row whose category is NULL has no joined row satisfying
is_published=True and is dropped. -/
def homepageFilter (now : Int) (p : Post) : Bool :=
  decide (p.pub_date ≤ now) && p.is_published &&
    (match p.category with
     | some c => c.is_published
     | none => false)

/-- HomePage (views.py lines 96-107): the filtered queryset ordered by
('-pub_date', 'title').  The comment_count annotation does not change
which rows appear and is omitted. -/
def homePageListing (now : Int) (posts : List Post) : List Post :=
  (posts.filter (homepageFilter now)).mergeSort postOrder

/-- ProfileView.get_context_data post filter (views.py lines 117-130): when
request.user.is_authenticated the only condition is author=owner; otherwise
author=owner, is_published=True and pub_date__lte=datetime.now().  The code
tests only is_authenticated, never whether the viewer is the profile owner. -/
def profileFilter (now : Int) (viewer : Option Nat) (owner : Nat) (p : Post) : Bool :=
  if viewer.isSome then p.author == owner
  else p.author == owner && p.is_published && decide (p.pub_date ≤ now)

/-- ProfileView post listing: filtered posts in the default Post.Meta
ordering ('-pub_date', 'title'). -/
def profileListing (now : Int) (viewer : Option Nat) (owner : Nat)
    (posts : List Post) : List Post :=
  (posts.filter (profileFilter now viewer owner)).mergeSort postOrder

/-- CategoryListView.get_context_data post filter (views.py lines 237-241):
category__slug=slug, is_published=True, pub_date__lte=datetime.now().
The slug condition traverses the nullable foreign key, so a NULL category
is dropped. -/
def categoryPageFilter (now : Int) (slug : String) (p : Post) : Bool :=
  (match p.category with
   | some c => c.slug == slug
   | none => false) &&
  p.is_published && decide (p.pub_date ≤ now)

/-- CategoryListView post listing, default Post.Meta ordering. -/
def categoryListing (now : Int) (slug : String) (posts : List Post) : List Post :=
  (posts.filter (categoryPageFilter now slug)).mergeSort postOrder

/-- CategoryListView object lookup (views.py lines 225-231): DetailView
resolves the slug against Category.objects.filter(is_published=True); a miss
is a 404, modelled as none.  The request user is not consulted, hence the
unused viewer argument. -/
def categoryDetail (_viewer : Option Nat) (cats : List Category)
    (slug : String) : Option Category :=
  (cats.filter (fun c => c.is_published)).find? (fun c => c.slug == slug)

/-- get_object_or_404(Post, id=pid), none modelling the 404. -/
def getPost (posts : List Post) (pid : Nat) : Option Post :=
  posts.find? (fun p => p.id == pid)

/-- get_object_or_404(Comment, id=cid), none modelling the 404. -/
def getComment (comments : List Comment) (cid : Nat) : Option Comment :=
  comments.find? (fun c => c.id == cid)

/-- PostDetailView via PostMixin (views.py lines 46-48 and 147-156):
get_object on the unfiltered Post queryset, keyed by id only; the request
user is never consulted, hence the unused viewer argument. -/
def postDetail (posts : List Post) (_viewer : Option Nat) (pid : Nat) :
    Option Post :=
  getPost posts pid

/-- Django Paginator.num_pages with the default allow_empty_first_page and
orphans=0: the ceiling of count / per, and at least one page. -/
def numPages (count per : Nat) : Nat :=
  max 1 ((count + per - 1) / per)

/-- Django Paginator.get_page (ProfileView line 133, CategoryListView line
244): a missing or non-integer page number falls back to page 1, a number
below 1 or above num_pages falls back to the last page. -/
def get_page (count per : Nat) (number : Option Nat) : Nat :=
  match number with
  | none => 1
  | some n =>
    if n < 1 then numPages count per
    else if numPages count per < n then numPages count per
    else n

/-- The slice of items shown on a page: Paginator.page(page).object_list. -/
def pageItems (items : List α) (per page : Nat) : List α :=
  (items.drop ((page - 1) * per)).take per

/-- ListView.paginate_queryset, the paginator HomePage uses through
paginate_by (views.py line 106): a missing page number defaults to 1, and a
page number outside 1..num_pages raises Http404, modelled as none. -/
def listViewPage (count per : Nat) (number : Option Nat) : Option Nat :=
  match number with
  | none => if 1 ≤ numPages count per then some 1 else none
  | some n => if 1 ≤ n ∧ n ≤ numPages count per then some n else none

/-- The outcome of a dispatch: a 404, a redirect to the post detail page of
the given post id, or proceeding into super().dispatch (form rendering and
the mutation itself happen only there). -/
inductive Response where
  | notFound
  | redirect (postId : Nat)
  | proceed
deriving DecidableEq

/-- PostEditMixin.dispatch (views.py lines 58-67): fetch the post or 404,
then redirect to the detail page of the same post id unless the recorded
author is the requesting user. -/
def postEditDispatch (posts : List Post) (pid : Nat) (actor : Option Nat) :
    Response :=
  match getPost posts pid with
  | none => .notFound
  | some p => if some p.author = actor then .proceed else .redirect pid

/-- CommentEditMixin.dispatch (views.py lines 79-88): fetch the comment or
404, then redirect to the detail page of the post_id captured from the URL
unless the recorded author is the requesting user. -/
def commentEditDispatch (comments : List Comment) (cid urlPostId : Nat)
    (actor : Option Nat) : Response :=
  match getComment comments cid with
  | none => .notFound
  | some c => if some c.author = actor then .proceed else .redirect urlPostId

/-- A post edit request end to end: the dispatch decision is taken first and
the stored rows change only on proceed; f is whatever update the bound form
would apply. -/
def postEditOp (posts : List Post) (pid : Nat) (actor : Option Nat)
    (f : Post → Post) : Response × List Post :=
  match postEditDispatch posts pid actor with
  | .proceed => (.proceed, posts.map (fun q => if q.id = pid then f q else q))
  | r => (r, posts)

/-- A post delete request end to end. -/
def postDeleteOp (posts : List Post) (pid : Nat) (actor : Option Nat) :
    Response × List Post :=
  match postEditDispatch posts pid actor with
  | .proceed => (.proceed, posts.filter (fun q => !(q.id == pid)))
  | r => (r, posts)

/-- A comment edit request end to end (EditComment view). -/
def commentEditOp (comments : List Comment) (cid urlPostId : Nat)
    (actor : Option Nat) (f : Comment → Comment) : Response × List Comment :=
  match commentEditDispatch comments cid urlPostId actor with
  | .proceed =>
    (.proceed, comments.map (fun c => if c.id = cid then f c else c))
  | r => (r, comments)

/-- A comment delete request end to end (CommentDeleteView). -/
def commentDeleteOp (comments : List Comment) (cid urlPostId : Nat)
    (actor : Option Nat) : Response × List Comment :=
  match commentEditDispatch comments cid urlPostId actor with
  | .proceed => (.proceed, comments.filter (fun c => !(c.id == cid)))
  | r => (r, comments)

/-- PostCreatView.form_valid (views.py lines 163-165): whatever author the
bound instance carried, it is overwritten with request.user before save. -/
def postFormValid (inst : Post) (reqUser : Nat) : Post :=
  { inst with author := reqUser }

/-- CommentCreateView.form_valid (views.py lines 201-204): the author is
overwritten with request.user and the parent post with the post fetched
from the post_id in the URL. -/
def commentFormValid (inst : Comment) (reqUser urlPost : Nat) : Comment :=
  { inst with author := reqUser, posts := urlPost }


/-! Concrete rows used by witnesses and counterexamples. -/

/-- A published, past-dated post with no category. -/
def nullCatPost : Post :=
  { id := 1, title := "a", pub_date := 0, is_published := true,
    author := 1, category := none }

/-- An unpublished, future-dated post by user 1. -/
def draftPost : Post :=
  { id := 2, title := "d", pub_date := 100, is_published := false,
    author := 1, category := none }

/-- An unpublished category. -/
def unpubCategory : Category :=
  { id := 1, slug := "c", is_published := false }

/-- A published, past-dated post whose category is unpublished. -/
def unpubCatPost : Post :=
  { id := 3, title := "p", pub_date := 0, is_published := true,
    author := 1, category := some unpubCategory }

/-- A generic live post, for building lists of a given length. -/
def mkPost (i : Nat) : Post :=
  { id := i, title := "t", pub_date := 0, is_published := true,
    author := 1, category := none }

/-- Sorting a list of posts does not change which posts are in it. -/
theorem mem_mergeSort_postOrder {p : Post} {l : List Post} :
    p ∈ l.mergeSort postOrder ↔ p ∈ l :=
  (List.mergeSort_perm l postOrder).mem_iff

/-- Claim C1, counterexample: a post that is published, past-dated and has
no category satisfies the membership condition of the claim, yet the
homepage listing built from it alone does not contain it: the filter
category__is_published=True drops NULL categories. -/
theorem C1_counterexample :
    nullCatPost.is_published = true ∧ nullCatPost.pub_date ≤ 1 ∧
    nullCatPost.category = none ∧
    nullCatPost ∉ homePageListing 1 [nullCatPost] := by
  refine ⟨rfl, by decide, rfl, ?_⟩
  simp only [homePageListing, mem_mergeSort_postOrder]
  decide

/-- Claim C1, amended: a post appears on the homepage listing iff it is in
the table, is published, its pub_date is not in the future, and it HAS a
category which is itself published; a post with a NULL category never
appears. -/
theorem C1_homepage_membership (now : Int) (posts : List Post) (p : Post) :
    p ∈ homePageListing now posts ↔
      p ∈ posts ∧ p.is_published = true ∧ p.pub_date ≤ now ∧
        ∃ c, p.category = some c ∧ c.is_published = true := by
  unfold homePageListing
  rw [mem_mergeSort_postOrder, List.mem_filter]
  unfold homepageFilter
  cases hc : p.category with
  | none => simp [hc]
  | some c =>
    simp only [hc, Bool.and_eq_true, decide_eq_true_eq, Option.some.injEq]
    constructor
    · rintro ⟨hm, ⟨hd, hp⟩, hcat⟩
      exact ⟨hm, hp, hd, c, rfl, hcat⟩
    · rintro ⟨hm, hp, hd, c', hcc, hcat⟩
      cases hcc
      exact ⟨hm, ⟨hd, hp⟩, hcat⟩

/-- Claim C2, counterexample: user 2 is authenticated and is not the owner
(user 1) of the profile being viewed, yet the profile listing still hands
user 2 the unpublished, future-dated draft of user 1: the code checks only
is_authenticated, not ownership. -/
theorem C2_counterexample :
    (2 : Nat) ≠ 1 ∧ draftPost.author = 1 ∧
    draftPost.is_published = false ∧ (0 : Int) < draftPost.pub_date ∧
    draftPost ∈ profileListing 0 (some 2) 1 [draftPost] := by
  refine ⟨by decide, rfl, rfl, by decide, ?_⟩
  simp only [profileListing, mem_mergeSort_postOrder]
  decide

/-- Claim C2, amended: the profile listing of owner U contains post P iff P
is in the table, P is authored by U, and either the viewer is authenticated
(ANY authenticated viewer, not only U) or P is published with a non-future
pub_date.  Anonymous viewers get the filtered view; every authenticated
viewer gets the unfiltered one. -/
theorem C2_profile_membership (now : Int) (viewer : Option Nat) (owner : Nat)
    (posts : List Post) (p : Post) :
    p ∈ profileListing now viewer owner posts ↔
      p ∈ posts ∧ p.author = owner ∧
        (viewer.isSome = true ∨
          (p.is_published = true ∧ p.pub_date ≤ now)) := by
  unfold profileListing
  rw [mem_mergeSort_postOrder, List.mem_filter]
  unfold profileFilter
  cases viewer with
  | none => simp [and_assoc]
  | some v => simp

/-- Claim C3, counterexample: the homepage listing paginates through the
generic list view, which raises Http404 (none) for an out-of-range page
instead of clamping to the last page: 25 posts, page size 10, page 99. -/
theorem C3_counterexample :
    numPages 25 OBJECTS_PER_PAGE = 3 ∧
    listViewPage 25 OBJECTS_PER_PAGE (some 99) = none := by
  decide

/-- Claim C3, amended: the page size is 10 for every listing and 25 posts
make pages of sizes 10, 10 and 5; the profile and category listings, which
paginate with Paginator.get_page, clamp an out-of-range page number to the
last page, but the homepage, which paginates through the generic list view,
answers an out-of-range page number with a 404 rather than clamping. -/
theorem C3_pagination :
    OBJECTS_PER_PAGE = 10 ∧
    (∀ count n, numPages count OBJECTS_PER_PAGE < n →
      get_page count OBJECTS_PER_PAGE (some n) =
        numPages count OBJECTS_PER_PAGE) ∧
    numPages 25 OBJECTS_PER_PAGE = 3 ∧
    (∀ l : List Post, l.length = 25 →
      (pageItems l OBJECTS_PER_PAGE 1).length = 10 ∧
      (pageItems l OBJECTS_PER_PAGE 2).length = 10 ∧
      (pageItems l OBJECTS_PER_PAGE 3).length = 5) ∧
    (∀ n, numPages 25 OBJECTS_PER_PAGE < n →
      listViewPage 25 OBJECTS_PER_PAGE (some n) = none) := by
  refine ⟨rfl, ?_, by decide, ?_, ?_⟩
  · intro count n h
    unfold get_page
    have h1 : ¬ n < 1 := by
      have := Nat.le_max_left 1 ((count + OBJECTS_PER_PAGE - 1) / OBJECTS_PER_PAGE)
      unfold numPages at h
      omega
    simp [h1, h]
  · intro l hl
    simp [pageItems, List.length_take, List.length_drop, hl]
    decide
  · intro n h
    unfold listViewPage
    have h2 : ¬ (1 ≤ n ∧ n ≤ numPages 25 OBJECTS_PER_PAGE) := by omega
    simp [h2]

/-- Claim C3, witness for the amended theorem at concrete inputs. -/
theorem C3_pagination_witness :
    get_page 25 OBJECTS_PER_PAGE (some 99) = numPages 25 OBJECTS_PER_PAGE ∧
    (pageItems ((List.range 25).map mkPost) OBJECTS_PER_PAGE 3).length = 5 ∧
    listViewPage 25 OBJECTS_PER_PAGE (some 99) = none :=
  ⟨C3_pagination.2.1 25 99 (by decide),
   (C3_pagination.2.2.2.1 ((List.range 25).map mkPost) (by decide)).2.2,
   C3_pagination.2.2.2.2 99 (by decide)⟩

/-- Claim C4, counterexample: a published, past-dated post whose category is
unpublished is nevertheless kept in the profile listing shown to an
anonymous viewer: the profile filter never looks at the category. -/
theorem C4_counterexample :
    unpubCatPost.is_published = true ∧ unpubCatPost.pub_date ≤ 1 ∧
    (∃ c, unpubCatPost.category = some c ∧ c.is_published = false) ∧
    unpubCatPost ∈ profileListing 1 none 1 [unpubCatPost] := by
  refine ⟨rfl, by decide, ⟨unpubCategory, rfl, rfl⟩, ?_⟩
  simp only [profileListing, mem_mergeSort_postOrder]
  decide

/-- Claim C4, amended: for an anonymous viewer, the profile listing of owner
U keeps post P iff P is authored by U, is published and has a non-future
pub_date; the publication state of the category of P plays no part. -/
theorem C4_anonymous_profile (now : Int) (owner : Nat) (posts : List Post)
    (p : Post) :
    p ∈ profileListing now none owner posts ↔
      p ∈ posts ∧ p.author = owner ∧ p.is_published = true ∧
        p.pub_date ≤ now := by
  unfold profileListing
  rw [mem_mergeSort_postOrder, List.mem_filter]
  unfold profileFilter
  simp [and_assoc]

/-- A comment by user 1 on post 2. -/
def sampleComment : Comment :=
  { id := 5, text := "x", posts := 2, author := 1 }

/-- The post returned by getPost carries the id it was looked up by. -/
theorem getPost_id {posts : List Post} {pid : Nat} {p : Post}
    (h : getPost posts pid = some p) : p.id = pid := by
  unfold getPost at h
  have := List.find?_some h
  simpa using this

/-- Claim C5: an edit or delete request on a post or a comment proceeds iff
the recorded author is the requesting actor; any other actor is answered
with a redirect to the detail page (the post itself for posts, the post
whose id the comment URL carries for comments), never a hard error, and the
decision falls in dispatch, before the edit form or the mutation, so the
stored rows are untouched. -/
theorem C5_ownership_guard
    (posts : List Post) (comments : List Comment) (pid cid urlPid : Nat)
    (actor : Option Nat) (p : Post) (c : Comment)
    (hp : getPost posts pid = some p) (hc : getComment comments cid = some c)
    (hurl : urlPid = c.posts) :
    (postEditDispatch posts pid actor = .proceed ↔ actor = some p.author) ∧
    (actor ≠ some p.author →
      postEditDispatch posts pid actor = .redirect p.id ∧
      (∀ f, postEditOp posts pid actor f = (.redirect p.id, posts)) ∧
      postDeleteOp posts pid actor = (.redirect p.id, posts)) ∧
    (commentEditDispatch comments cid urlPid actor = .proceed ↔
      actor = some c.author) ∧
    (actor ≠ some c.author →
      commentEditDispatch comments cid urlPid actor = .redirect c.posts) := by
  have hpid : p.id = pid := getPost_id hp
  subst hurl
  have hdp : postEditDispatch posts pid actor =
      if some p.author = actor then .proceed else .redirect pid := by
    unfold postEditDispatch
    rw [hp]
  have hdc : commentEditDispatch comments cid c.posts actor =
      if some c.author = actor then .proceed else .redirect c.posts := by
    unfold commentEditDispatch
    rw [hc]
  refine ⟨?_, ?_, ?_, ?_⟩
  · rw [hdp]
    by_cases hpa : some p.author = actor
    · rw [if_pos hpa]
      exact iff_of_true rfl hpa.symm
    · rw [if_neg hpa]
      exact iff_of_false (by simp) (fun h => hpa h.symm)
  · intro hne
    have hpa : ¬ some p.author = actor := fun h => hne h.symm
    have hd : postEditDispatch posts pid actor = .redirect pid := by
      rw [hdp, if_neg hpa]
    refine ⟨?_, ?_, ?_⟩
    · rw [hpid]
      exact hd
    · intro f
      rw [hpid]
      unfold postEditOp
      rw [hd]
    · rw [hpid]
      unfold postDeleteOp
      rw [hd]
  · rw [hdc]
    by_cases hca : some c.author = actor
    · rw [if_pos hca]
      exact iff_of_true rfl hca.symm
    · rw [if_neg hca]
      exact iff_of_false (by simp) (fun h => hca h.symm)
  · intro hne
    have hca : ¬ some c.author = actor := fun h => hne h.symm
    rw [hdc, if_neg hca]

/-- Claim C5, witness: user 9 asking to edit the post of user 1 is
redirected to that post, and asking to edit the comment of user 1 is
redirected to the parent post. -/
theorem C5_ownership_guard_witness :
    postEditDispatch [draftPost] 2 (some 9) = .redirect draftPost.id ∧
    commentEditDispatch [sampleComment] 5 sampleComment.posts (some 9) =
      .redirect sampleComment.posts :=
  ⟨((C5_ownership_guard [draftPost] [sampleComment] 2 5 sampleComment.posts
      (some 9) draftPost sampleComment rfl rfl rfl).2.1 (by decide)).1,
   (C5_ownership_guard [draftPost] [sampleComment] 2 5 sampleComment.posts
      (some 9) draftPost sampleComment rfl rfl rfl).2.2.2 (by decide)⟩

/-- Claim C6: when an actor other than the author of comment C asks to edit
or delete C, the request ends in a redirect to the detail page of the parent
post of C and the comment table is left exactly as it was: no comment is
rewritten or removed. -/
theorem C6_comment_unchanged
    (comments : List Comment) (c : Comment) (actor : Option Nat)
    (hc : getComment comments c.id = some c) (hne : actor ≠ some c.author)
    (f : Comment → Comment) :
    commentEditOp comments c.id c.posts actor f =
      (.redirect c.posts, comments) ∧
    commentDeleteOp comments c.id c.posts actor =
      (.redirect c.posts, comments) := by
  have hca : ¬ some c.author = actor := fun h => hne h.symm
  have hd : commentEditDispatch comments c.id c.posts actor =
      .redirect c.posts := by
    unfold commentEditDispatch
    rw [hc]
    exact if_neg hca
  constructor
  · unfold commentEditOp
    rw [hd]
  · unfold commentDeleteOp
    rw [hd]

/-- Claim C6, witness: user 9 editing or deleting the comment of user 1 is
redirected to post 2 and the stored comment survives unchanged. -/
theorem C6_comment_unchanged_witness :
    commentEditOp [sampleComment] 5 2 (some 9) id =
      (.redirect 2, [sampleComment]) ∧
    commentDeleteOp [sampleComment] 5 2 (some 9) =
      (.redirect 2, [sampleComment]) :=
  C6_comment_unchanged [sampleComment] sampleComment (some 9) rfl
    (by decide) id

/-- Claim C7: an unpublished category is not resolvable for any viewer: the
detail lookup runs against the published-only queryset, so with slugs unique
(the model declares slug unique) the page is a 404, whoever asks. -/
theorem C7_unpublished_category_not_found
    (viewer : Option Nat) (cats : List Category) (c : Category)
    (_hmem : c ∈ cats) (hunpub : c.is_published = false)
    (huniq : ∀ c2 ∈ cats, c2.slug = c.slug → c2 = c) :
    categoryDetail viewer cats c.slug = none := by
  unfold categoryDetail
  cases hfind : (cats.filter (fun x => x.is_published)).find?
      (fun x => x.slug == c.slug) with
  | none => rfl
  | some c2 =>
    exfalso
    have hpred := List.find?_some hfind
    have hmem2 := List.mem_of_find?_eq_some hfind
    rw [List.mem_filter] at hmem2
    have hslug : c2.slug = c.slug := by simpa using hpred
    have hceq : c2 = c := huniq c2 hmem2.1 hslug
    rw [hceq, hunpub] at hmem2
    exact Bool.false_ne_true hmem2.2

/-- Claim C7, witness: the unpublished category is a 404 for an anonymous
viewer of its own slug. -/
theorem C7_unpublished_category_not_found_witness :
    categoryDetail none [unpubCategory] unpubCategory.slug = none :=
  C7_unpublished_category_not_found none [unpubCategory] unpubCategory
    (by decide) rfl (by decide)

/-- A post list ordered the way the spec words it: pub_date descending and,
on equal pub_date, title ascending. -/
def ListingSorted (l : List Post) : Prop :=
  l.Pairwise (fun a b => b.pub_date < a.pub_date ∨
    (a.pub_date = b.pub_date ∧ a.title ≤ b.title))

/-- The ordering comparator is transitive. -/
theorem postOrder_trans (a b c : Post) (hab : postOrder a b = true)
    (hbc : postOrder b c = true) : postOrder a c = true := by
  unfold postOrder at hab hbc ⊢
  split_ifs at hab hbc ⊢ with h1 h2 h3 <;>
    simp only [decide_eq_true_eq] at hab hbc ⊢ <;>
    first
      | exact le_trans hab hbc
      | omega

/-- The ordering comparator is total. -/
theorem postOrder_total (a b : Post) :
    (postOrder a b || postOrder b a) = true := by
  unfold postOrder
  by_cases h : a.pub_date = b.pub_date
  · simp only [if_pos h, if_pos h.symm, Bool.or_eq_true, decide_eq_true_eq]
    exact le_total a.title b.title
  · have h2 : ¬ b.pub_date = a.pub_date := fun hh => h hh.symm
    simp only [if_neg h, if_neg h2, Bool.or_eq_true, decide_eq_true_eq]
    omega

/-- A sorted-by-postOrder list is sorted the way the spec words it. -/
theorem postOrder_imp (a b : Post) (h : postOrder a b = true) :
    b.pub_date < a.pub_date ∨
      (a.pub_date = b.pub_date ∧ a.title ≤ b.title) := by
  unfold postOrder at h
  by_cases h1 : a.pub_date = b.pub_date
  · rw [if_pos h1] at h
    exact Or.inr ⟨h1, by simpa using h⟩
  · rw [if_neg h1] at h
    exact Or.inl (by simpa using h)

/-- Claim C8: the homepage, profile and category listings all come out
ordered by pub_date descending and, for equal pub_date, by title
ascending. -/
theorem C8_listing_ordering (now : Int) (viewer : Option Nat) (owner : Nat)
    (slug : String) (posts : List Post) :
    ListingSorted (homePageListing now posts) ∧
    ListingSorted (profileListing now viewer owner posts) ∧
    ListingSorted (categoryListing now slug posts) := by
  have hs : ∀ l : List Post,
      ListingSorted (l.mergeSort postOrder) := by
    intro l
    have := List.sorted_mergeSort postOrder_trans postOrder_total l
    exact this.imp (fun h => postOrder_imp _ _ h)
  exact ⟨hs _, hs _, hs _⟩

/-- Claim C9: the post detail page is keyed by id alone: whichever viewer
asks, anonymous included, a stored post is returned whatever its published
flag, pub_date or category state; only a missing id is a 404. -/
theorem C9_post_detail_unfiltered
    (posts : List Post) (viewer : Option Nat) (p : Post)
    (hmem : p ∈ posts)
    (huniq : ∀ q ∈ posts, q.id = p.id → q = p) :
    postDetail posts viewer p.id = some p := by
  unfold postDetail getPost
  cases hfind : posts.find? (fun q => q.id == p.id) with
  | none =>
    exfalso
    have := List.find?_eq_none.mp hfind p hmem
    simp at this
  | some q =>
    have hpred := List.find?_some hfind
    have hqmem := List.mem_of_find?_eq_some hfind
    rw [huniq q hqmem (by simpa using hpred)]

/-- Claim C9, witness: an anonymous viewer gets the unpublished,
future-dated draft on its detail page. -/
theorem C9_post_detail_unfiltered_witness :
    postDetail [draftPost] none draftPost.id = some draftPost :=
  C9_post_detail_unfiltered [draftPost] none draftPost (by decide) (by decide)

/-- Claim C10: form_valid overwrites the author of a freshly created post or
comment with the requesting user, and a new comment is attached to the post
the URL names, whatever author or parent the submitted form data carried. -/
theorem C10_author_assignment (instP : Post) (instC : Comment)
    (u pid : Nat) :
    (postFormValid instP u).author = u ∧
    (commentFormValid instC u pid).author = u ∧
    (commentFormValid instC u pid).posts = pid :=
  ⟨rfl, rfl, rfl⟩

end Blog
